import Mathlib

/-!
Shallow embedding of the LDAP service-lifecycle supervisor from
`src/spruce/ldap/_services.py` and `src/spruce/ldap/openldap/_services.py`.

Operating-system and directory-protocol effects (process liveness, signal
delivery, slapd launch, pid-file contents, ldap client calls, random salt,
SHA-1) are modelled by an explicit environment `Env`; each operation returns
its Python result (`Except Err`, where `Err` enumerates the exceptions the
code can raise), the mutated object state, and a trace of the observable
actions it performed, in order.
-/

deriving instance DecidableEq for Except

namespace SpruceLdap

/-- Python 2 byte strings, modelled as lists of characters (code points are
byte values for all the strings the claims touch); Lean `String` literals
are converted at the boundary with `String.toList`.  All operations on them
are structurally recursive so that concrete runs reduce in the kernel. -/
abbrev PyStr := List Char

/-- Python `str.split(',')`: always returns at least one part; a separator
at either end yields an empty part. -/
def split_on_comma : PyStr → List PyStr
  | [] => [[]]
  | c :: rest =>
      match split_on_comma rest with
      | h :: t => if c == ',' then [] :: h :: t else (c :: h) :: t
      | [] => [[c]]

/-- Python `','.join(parts)` (the ordinary one-argument call). -/
def join_with_comma : List PyStr → PyStr
  | [] => []
  | [x] => x
  | x :: y :: t => x ++ ',' :: join_with_comma (y :: t)

/-- Whether a string starts with the given prefix (`re` patterns anchored at
the start, and the `dc=` checks, use this). -/
def starts_with (pre s : PyStr) : Bool := s.take pre.length == pre

/-- Service status: `ServiceStatus = enum('stopped', 'running', 'gone')`
(`src/spruce/ldap/_services.py`, line 284). -/
inductive ServiceStatus where
  | stopped
  | running
  | gone
deriving DecidableEq, Repr

/-- Python exceptions raisable by the modelled code.  `ldapError i` stands for
a directory-protocol error raised by the `i`-th client call of
`create_basic`'s bootstrap sequence (calls are numbered in program order). -/
inductive Err where
  | invalidServiceOperation (op : String) (msg : String)
  | valueError (msg : String)
  | typeError (msg : String)
  | attributeError (name : String)
  | runtimeError (msg : String)
  | osError
  | ldapError (idx : Nat)
  | execReplaced
  | sysExit
deriving DecidableEq, Repr

/-- Outcome of `os.kill(pid, signal.SIGTERM)`: delivered, `ESRCH`
(no such process), or some other `OSError` (re-raised by `stop`). -/
inductive KillResult where
  | ok
  | esrch
  | err
deriving DecidableEq, Repr

/-- Observable actions, recorded in program order.  `write_pid`/`write_status`
are the two attribute writes performed by `_set_status`; the rest are
operating-system calls and directory-client calls.  Attribute payloads of
`add_s`/`modify_s` calls are elided except where a claim needs them
(the database entry's `olcRootPW` value and the organization entry's
derived `dc`/`o` value). -/
inductive Action where
  | write_pid (pid : Option Nat)
  | write_status (st : ServiceStatus)
  | waitpid (pid : Nat)
  | kill_sigterm (pid : Nat)
  | poll
  | popen_slapd
  | execvp_slapd
  | slaptest
  | write_rootpw (value : PyStr)
  | simple_bind (dn : PyStr)
  | modify_s (dn : PyStr)
  | add_s (dn : PyStr)
  | add_s_database (dn : PyStr) (rootpw : PyStr)
  | add_s_org (dn : PyStr) (org : PyStr)
  | unbind_s
deriving DecidableEq, Repr

/-- The mutable state of one `ServiceImpl` object: `_status`, `_pid`,
whether the `_slapd_proc` attribute has been assigned (it is only ever
assigned inside `OpenLdapService._start`'s fork branch), and
`_stop_on_del`. -/
structure ServiceState where
  status : ServiceStatus
  pid : Option Nat
  slapd_proc : Bool
  stop_on_del : Bool
deriving DecidableEq, Repr

/-- The environment: outcomes of every external effect the code consults.
`pid_exists`/`is_zombie` back `psutil.pid_exists` and the zombie check;
`kill` backs `os.kill(pid, SIGTERM)`; `slapd_launch` is `none` when the
spawned `slapd` exits before printing the readiness marker and `some pid`
(the child's pid) when it starts; `pidfile_path` is the `olcPidFile` value
discovered in `cn=config.ldif`, and `pidfile_content` what reading that file
yields; `configloc_err` and `slaptest_ok` back `create_minimal`'s config-dir
checks and the `slaptest` run; `ldap_ok i` is whether the `i`-th directory
call of the bootstrap sequence succeeds; `sha1` and the `urandom4_*` salts
back `hashlib.sha1` and `os.urandom(4)`. -/
structure Env where
  pid_exists : Nat → Bool
  is_zombie : Nat → Bool
  kill : Nat → KillResult
  pidfile_path : Option PyStr
  pidfile_content : PyStr
  slapd_launch : Option Nat
  configloc_err : Option Err
  slaptest_ok : Bool
  ldap_ok : Nat → Bool
  sha1 : PyStr → PyStr
  urandom4_root : PyStr
  urandom4_config : PyStr

/-- The standard base64 alphabet used by `base64.b64encode`. -/
def b64alphabet : List Char :=
  "ABCDEFGHIJKLMNOPQRSTUVWXYZabcdefghijklmnopqrstuvwxyz0123456789+/".toList

/-- Index into the base64 alphabet (out-of-range defaults are never hit for
byte input; the default keeps the function total). -/
def b64tbl (n : Nat) : Char := b64alphabet.getD n 'A'

/-- `base64.b64encode` over byte strings (bytes as characters with code
points below 256), with `=` padding. -/
def b64encode : List Char → List Char
  | [] => []
  | [a] => [b64tbl (a.toNat / 4), b64tbl (a.toNat % 4 * 16), '=', '=']
  | [a, b] => [b64tbl (a.toNat / 4), b64tbl (a.toNat % 4 * 16 + b.toNat / 16),
               b64tbl (b.toNat % 16 * 4), '=']
  | a :: b :: c :: rest =>
      b64tbl (a.toNat / 4) :: b64tbl (a.toNat % 4 * 16 + b.toNat / 16) ::
        b64tbl (b.toNat % 16 * 4 + c.toNat / 64) :: b64tbl (c.toNat % 64) ::
        b64encode rest

/-- Python 2 `\w` on a byte string without `re.UNICODE`: `[A-Za-z0-9_]`. -/
def isWordChar (c : Char) : Bool := c.isAlphanum || c == '_'

/-- `OpenLdapService._PASSWORD_WITH_SCHEME_RE`: whether the credential
matches `^\x7b(?P<scheme>\w+)\x7d(?P<value>.*)` (a brace-enclosed word
prefix).  The greedy `\w+` followed by a closing brace is equivalent to
taking the maximal word-character run after the opening brace and requiring
the next character to be the closing brace. -/
def password_with_scheme_matches (s : List Char) : Bool :=
  match s with
  | c :: rest =>
      if c == '\x7b' then
        let w := rest.takeWhile isWordChar
        match rest.drop w.length with
        | d :: _ => !w.isEmpty && d == '\x7d'
        | [] => false
      else false
  | [] => false

/-- The credential-to-config-value rendering that `create_basic` (root
password, `openldap/_services.py` lines 44-51) and `create_minimal` (config
password, lines 169-177) each perform inline: scheme-prefixed credentials
pass through verbatim, otherwise the value is
`"{SSHA}" + b64encode(sha1(password + salt).digest() + salt)` with a 4-byte
`os.urandom` salt. -/
def password_configvalue (sha1 : List Char → List Char) (salt : List Char)
    (password : List Char) : List Char :=
  if password_with_scheme_matches password then password
  else "{SSHA}".toList ++ b64encode (sha1 (password ++ salt) ++ salt)

/-- `ServiceImpl._SUFFIX_ORG_DN_RE`: whether a DN matches
`^dc=(?P<org>[^,]*),dc=(?P<tld>[^,]*)$`.  Since neither group may contain a
comma, a match is exactly a two-part comma split in which both parts start
with `dc=`. -/
def suffix_org_dn_matches (s : PyStr) : Bool :=
  match split_on_comma s with
  | [a, b] => starts_with "dc=".toList a && starts_with "dc=".toList b
  | _ => false

/-- The `org` group of `_SUFFIX_ORG_DN_RE` on a matching DN: the first
comma-separated part with its `dc=` prefix removed. -/
def suffix_org_group (s : PyStr) : PyStr := ((split_on_comma s).headD []).drop 3

/-- Character class `[A-Za-z0-9+/=]` of the spec's rendered-credential
pattern. -/
def isB64Char (c : Char) : Bool := c.isAlphanum || c == '+' || c == '/' || c == '='

/-- Modelled from the spec: the testable-property pattern
`^\x7bSSHA\x7d[A-Za-z0-9+/=]+$` for a rendered credential value. -/
def matchesSSHARegex (s : List Char) : Bool :=
  (s.take 6 == "{SSHA}".toList) && !(s.drop 6).isEmpty && (s.drop 6).all isB64Char

/-- The two attribute writes at the heart of `_set_status` (lines 255-261):
normalize the pid (non-running statuses force it to `None`), then assign
`self._pid` and `self._status`. -/
def set_status_write (st : ServiceStatus) (pid : Option Nat) (s : ServiceState) :
    ServiceState × List Action :=
  let pid := if st = ServiceStatus.running then pid else none
  ({ s with pid := pid, status := st }, [Action.write_pid pid, Action.write_status st])

/-- `ServiceImpl._probe_status`: when the recorded status is `running`, check
process liveness; a zombie is reaped (`os.waitpid`) and then the state is
degraded to `gone` via `_set_status('gone')` (which, having no pid, performs
no recursive probe); a vanished pid degrades to `gone` directly.  A recorded
`running` status with no pid would make `psutil.pid_exists(None)` raise
`TypeError`; this is unreachable through the public operations. -/
def probe_status (env : Env) (s : ServiceState) :
    Except Err Unit × ServiceState × List Action :=
  if s.status = ServiceStatus.running then
    match s.pid with
    | none => (Except.error (Err.typeError "pid is None"), s, [])
    | some p =>
        if env.pid_exists p then
          if env.is_zombie p then
            let (s1, tr) := set_status_write ServiceStatus.gone none s
            (Except.ok (), s1, Action.waitpid p :: tr)
          else (Except.ok (), s, [])
        else
          let (s1, tr) := set_status_write ServiceStatus.gone none s
          (Except.ok (), s1, tr)
  else (Except.ok (), s, [])

/-- `ServiceImpl._set_status`: `running` without a pid is a `ValueError`;
otherwise write the (normalized) pid and status, then re-probe when a pid
was set. -/
def set_status (env : Env) (st : ServiceStatus) (pid : Option Nat)
    (s : ServiceState) : Except Err Unit × ServiceState × List Action :=
  if st = ServiceStatus.running ∧ pid = none then
    (Except.error (Err.valueError "missing arg pid"), s, [])
  else
    let (s1, tr) := set_status_write st pid s
    if s1.pid.isSome then
      match probe_status env s1 with
      | (r, s2, tr2) => (r, s2, tr ++ tr2)
    else (Except.ok (), s1, tr)

/-- The `status` property: probe, then return the recorded status. -/
def status_read (env : Env) (s : ServiceState) :
    Except Err ServiceStatus × ServiceState × List Action :=
  match probe_status env s with
  | (Except.ok _, s1, tr) => (Except.ok s1.status, s1, tr)
  | (Except.error e, s1, tr) => (Except.error e, s1, tr)

/-- `ServiceImpl.__init__`: a supplied pid attaches to a pre-existing
process (`_set_status('running', pid=pid)`); otherwise the instance starts
out `stopped`.  `_slapd_proc` is not assigned here. -/
def service_init (env : Env) (pid : Option Nat) (stop_on_del : Bool) :
    Except Err Unit × ServiceState × List Action :=
  let s0 : ServiceState :=
    { status := ServiceStatus.stopped, pid := none, slapd_proc := false,
      stop_on_del := stop_on_del }
  match pid with
  | some p => set_status env ServiceStatus.running (some p) s0
  | none => set_status env ServiceStatus.stopped none s0

/-- `ServiceImpl.stop`: reject when the (re-probed) status is not `running`;
send `SIGTERM` to the recorded pid; on `ESRCH` degrade to `gone` and raise
`InvalidServiceOperation`; on delivery, `self._slapd_proc.poll()` (an
`AttributeError` when that attribute was never assigned), a blocking
`os.waitpid`, and `_set_status('stopped')`. -/
def stop (env : Env) (s : ServiceState) :
    Except Err Unit × ServiceState × List Action :=
  match status_read env s with
  | (Except.error e, s1, tr1) => (Except.error e, s1, tr1)
  | (Except.ok st, s1, tr1) =>
    if st ≠ ServiceStatus.running then
      (Except.error (Err.invalidServiceOperation "stop" "the service is not running"),
       s1, tr1)
    else
      match s1.pid with
      | none => (Except.error (Err.typeError "pid is None"), s1, tr1)
      | some p =>
        match env.kill p with
        | KillResult.esrch =>
            match set_status env ServiceStatus.gone none s1 with
            | (_, s2, tr2) =>
                (Except.error (Err.invalidServiceOperation "stop"
                    "the service went away before it could be stopped"),
                 s2, tr1 ++ [Action.kill_sigterm p] ++ tr2)
        | KillResult.err =>
            (Except.error Err.osError, s1, tr1 ++ [Action.kill_sigterm p])
        | KillResult.ok =>
            if s1.slapd_proc then
              match set_status env ServiceStatus.stopped none s1 with
              | (r, s2, tr2) =>
                  (r, s2,
                   tr1 ++ [Action.kill_sigterm p, Action.poll, Action.waitpid p] ++ tr2)
            else
              (Except.error (Err.attributeError "_slapd_proc"), s1,
               tr1 ++ [Action.kill_sigterm p])

/-- Python `str.strip()`: remove whitespace from both ends. -/
def py_strip (s : PyStr) : PyStr :=
  ((s.dropWhile Char.isWhitespace).reverse.dropWhile Char.isWhitespace).reverse

/-- `spruce.lang.int` applied to the pid-file text: a decimal digit string
converts, anything else raises `ValueError` (negative pids do not occur in
pid files). -/
def parse_int (s : PyStr) : Option Nat :=
  if !s.isEmpty && s.all Char.isDigit then
    some (s.foldl (fun n c => n * 10 + (c.toNat - 48)) 0)
  else none

/-- `OpenLdapService._start` (this subclass overrides the generic
`ServiceImpl._start`).  Fork branch: spawn `slapd` via `subprocess.Popen`
and assign `self._slapd_proc`; if the child exits before the readiness
marker appears, raise `RuntimeError`; otherwise resolve the pid (parsed from
the pid file named by the config's `olcPidFile` directive when one was
found, else the child's own pid — the parse happens via `_int` inside
`_set_status`) and record it with `_set_status('running', pid=pid)`.
Non-fork branch: `os.execvp` replaces the process image and does not return,
modelled as the distinguished outcome `execReplaced`. -/
def openldap_start (env : Env) (fork : Bool) (s : ServiceState) :
    Except Err Unit × ServiceState × List Action :=
  if fork then
    let s1 := { s with slapd_proc := true }
    match env.slapd_launch with
    | none =>
        (Except.error (Err.runtimeError "cannot start OpenLDAP service"), s1,
         [Action.popen_slapd])
    | some child_pid =>
        match
          (match env.pidfile_path with
           | some _ =>
               match parse_int (py_strip env.pidfile_content) with
               | some n => Except.ok n
               | none => Except.error (Err.valueError "invalid literal for int")
           | none => (Except.ok child_pid : Except Err Nat)) with
        | Except.error e => (Except.error e, s1, [Action.popen_slapd])
        | Except.ok pid =>
            match set_status env ServiceStatus.running (some pid) s1 with
            | (r, s2, tr) => (r, s2, Action.popen_slapd :: tr)
  else (Except.error Err.execReplaced, s, [Action.execvp_slapd])

/-- `ServiceImpl.start`: raise `InvalidServiceOperation` when the (re-probed)
status is `running`; otherwise run `self._start(fork=fork)` — note the
source discards `_start`'s value and falls off the end, so a successful
`start` returns Python `None` (modelled as `Except.ok none`). -/
def start (env : Env) (fork : Bool) (s : ServiceState) :
    Except Err (Option Nat) × ServiceState × List Action :=
  match status_read env s with
  | (Except.error e, s1, tr1) => (Except.error e, s1, tr1)
  | (Except.ok st, s1, tr1) =>
    if st = ServiceStatus.running then
      (Except.error (Err.invalidServiceOperation "start" "the service is already running"),
       s1, tr1)
    else
      match openldap_start env fork s1 with
      | (Except.error e, s2, tr2) => (Except.error e, s2, tr1 ++ tr2)
      | (Except.ok _, s2, tr2) => (Except.ok none, s2, tr1 ++ tr2)

/-- `OpenLdapService.create_minimal`: check/create the config directory,
render the config-password config value (inline copy of the credential
hashing, lines 169-177), write the bootstrap config file (its `rootpw` line
is the only content a claim depends on), run `slaptest` via
`create_from_configfile` (non-zero exit is a `RuntimeError`), and construct
a stopped instance (`cls(uris, configloc=configdir)`, i.e. `__init__` with
no pid). -/
def create_minimal (env : Env) (config_password : List Char) :
    Except Err ServiceState × List Action :=
  match env.configloc_err with
  | some e => (Except.error e, [])
  | none =>
      let config_password_configvalue :=
        password_configvalue env.sha1 env.urandom4_config config_password
      if env.slaptest_ok then
        match service_init env none true with
        | (_, s, tr) =>
            (Except.ok s,
             Action.write_rootpw config_password_configvalue :: Action.slaptest :: tr)
      else
        (Except.error (Err.runtimeError "invalid config file"),
         [Action.write_rootpw config_password_configvalue, Action.slaptest])

/-- Run a fixed sequence of directory-client calls, each identified by its
position in `create_basic`'s program order; the first failing call raises
and aborts the rest. -/
def run_calls (env : Env) : List (Nat × Action) → Except Err Unit × List Action
  | [] => (Except.ok (), [])
  | (i, a) :: rest =>
      if env.ldap_ok i then
        match run_calls env rest with
        | (r, tr) => (r, a :: tr)
      else (Except.error (Err.ldapError i), [a])

/-- The body of `create_basic`'s `try` block (`openldap/_services.py` lines
69-126): bind as `cn=config`, configure SASL authentication, load the module
list, create the primary backend database (carrying the rendered root
password), set index/access on the `hdb` database, unbind; then, when the
suffix has more than one RDN, bind as the root DN, add the organization
entry at the suffix's org DN, and walk the intermediate organizational-unit
RDNs.  The first step of that walk evaluates `','.join(orgunit_rdn,
orgunit_dn)` — a two-argument call to the one-argument method `str.join` —
which raises `TypeError` before any further client call, so a nonempty walk
never reaches its `add_s` (which, as written, would again target
`suffix_org_dn`). -/
def cb_try_body (env : Env) (suffix_rdns : List PyStr)
    (suffix_org_dn suffix_org root_dn dbtype : PyStr)
    (suffix_orgunits_rdns : List PyStr) (root_password_configvalue : PyStr) :
    Except Err Unit × List Action :=
  match run_calls env
      [(0, Action.simple_bind "cn=config".toList),
       (1, Action.modify_s "cn=config".toList),
       (2, Action.add_s "cn=Module{0},cn=config".toList),
       (3, Action.add_s_database ("olcDatabase=".toList ++ dbtype ++ ",cn=config".toList)
             root_password_configvalue),
       (4, Action.modify_s "olcDatabase={1}hdb,cn=config".toList),
       (5, Action.unbind_s)] with
  | (Except.error e, tr) => (Except.error e, tr)
  | (Except.ok _, tr) =>
      if suffix_rdns.length > 1 then
        match run_calls env
            [(6, Action.simple_bind root_dn),
             (7, Action.add_s_org suffix_org_dn suffix_org)] with
        | (Except.error e, tr2) => (Except.error e, tr ++ tr2)
        | (Except.ok _, tr2) =>
            match suffix_orgunits_rdns with
            | [] =>
                match run_calls env [(8, Action.unbind_s)] with
                | (r, tr3) => (r, tr ++ tr2 ++ tr3)
            | _ :: _ =>
                (Except.error (Err.typeError "join takes exactly one argument"),
                 tr ++ tr2)
      else (Except.ok (), tr)

/-- `create_basic`'s `finally` clause (lines 128-130): if the instance still
reports `running`, stop it.  Python `finally` semantics: an exception raised
inside the clause (by the `status` probe or by `stop`) propagates and
replaces the pending result. -/
def cb_finally (env : Env) (s : ServiceState) (result : Except Err Unit) :
    Except Err Unit × ServiceState × List Action :=
  match status_read env s with
  | (Except.error e, s1, tr1) => (Except.error e, s1, tr1)
  | (Except.ok st, s1, tr1) =>
    if st = ServiceStatus.running then
      match stop env s1 with
      | (Except.ok _, s2, tr2) => (result, s2, tr1 ++ tr2)
      | (Except.error e, s2, tr2) => (Except.error e, s2, tr1 ++ tr2)
    else (result, s1, tr1)

/-- `OpenLdapService.create_basic`: split the suffix into RDNs; when it has
more than one, its last two joined must match `_SUFFIX_ORG_DN_RE`
(`ValueError` otherwise, raised before anything else happens); render the
root password; `create_minimal`; `start(fork=True)` — whose return value
(always Python `None`, see `start`) is compared with `0`, a comparison that
can never hold, so the `sys.exit()` child guard is dead; then the `try`
body with its guaranteed `finally` stop.  On success the instance state
after the `finally` (a stopped service) is returned. -/
def create_basic (env : Env) (suffix root_dn dbtype : PyStr)
    (root_password : PyStr) (config_password : PyStr) :
    Except Err ServiceState × List Action :=
  let suffix_rdns := split_on_comma suffix
  let suffix_org_dn :=
    join_with_comma (suffix_rdns.drop (suffix_rdns.length - 2))
  let suffix_orgunits_rdns := suffix_rdns.take (suffix_rdns.length - 2)
  if suffix_rdns.length > 1 ∧ ¬ suffix_org_dn_matches suffix_org_dn then
    (Except.error (Err.valueError "invalid suffix DN"), [])
  else
    let suffix_org := suffix_org_group suffix_org_dn
    let root_password_configvalue :=
      password_configvalue env.sha1 env.urandom4_root root_password
    match create_minimal env config_password with
    | (Except.error e, tr0) => (Except.error e, tr0)
    | (Except.ok service, tr0) =>
        match start env true service with
        | (Except.error e, _, tr1) => (Except.error e, tr0 ++ tr1)
        | (Except.ok svc_pid, s1, tr1) =>
            if svc_pid = some 0 then (Except.error Err.sysExit, tr0 ++ tr1)
            else
              match cb_try_body env suffix_rdns suffix_org_dn suffix_org root_dn
                  dbtype suffix_orgunits_rdns root_password_configvalue with
              | (body_res, trB) =>
                  match cb_finally env s1 body_res with
                  | (Except.ok _, s2, trF) =>
                      (Except.ok s2, tr0 ++ tr1 ++ trB ++ trF)
                  | (Except.error e, _, trF) =>
                      (Except.error e, tr0 ++ tr1 ++ trB ++ trF)

/-- The spec's service-state invariant: a pid is recorded exactly when the
recorded status is `running`. -/
def pid_status_inv (s : ServiceState) : Prop :=
  s.pid.isSome ↔ s.status = ServiceStatus.running

instance (s : ServiceState) : Decidable (pid_status_inv s) := by
  unfold pid_status_inv; infer_instance

/-- A benign environment: every pid alive and non-zombie, signals delivered,
`slapd` launches with child pid 7 and no pid-file directive, config dir and
`slaptest` fine, every directory call succeeds. -/
def env_alive : Env :=
  { pid_exists := fun _ => true, is_zombie := fun _ => false,
    kill := fun _ => KillResult.ok, pidfile_path := none, pidfile_content := [],
    slapd_launch := some 7, configloc_err := none, slaptest_ok := true,
    ldap_ok := fun _ => true, sha1 := fun _ => List.replicate 20 'x',
    urandom4_root := "abcd".toList, urandom4_config := "abcd".toList }

/-- Like `env_alive` but the probed pid no longer exists. -/
def env_dead : Env := { env_alive with pid_exists := fun _ => false }

/-- Like `env_alive` but the probed pid is a zombie. -/
def env_zombie : Env := { env_alive with is_zombie := fun _ => true }

/-- Like `env_alive` but signal delivery reports `ESRCH` (the process is
seen by the liveness probe yet vanishes before the signal lands). -/
def env_esrch : Env := { env_alive with kill := fun _ => KillResult.esrch }

/-- Like `env_alive` but the fourth directory call of the bootstrap
sequence (creating the backend database entry) fails. -/
def env_ldap3_fail : Env := { env_alive with ldap_ok := fun i => !(i == 3) }

/-- Like `env_ldap3_fail` but the cleanup-time termination signal finds no
such process. -/
def env_ldap3_fail_esrch : Env :=
  { env_ldap3_fail with kill := fun _ => KillResult.esrch }

/-- Like `env_ldap3_fail` but the launched process dies instantly, so the
instance degrades to `gone` on the very first probe after launch. -/
def env_ldap3_fail_dead : Env :=
  { env_ldap3_fail with pid_exists := fun _ => false }

/-- A never-started (or cleanly stopped) instance. -/
def svc_stopped : ServiceState :=
  { status := ServiceStatus.stopped, pid := none, slapd_proc := false,
    stop_on_del := true }

/-- A running instance that was started through the fork-launch path (so
its `_slapd_proc` handle is recorded). -/
def svc_running : ServiceState :=
  { status := ServiceStatus.running, pid := some 7, slapd_proc := true,
    stop_on_del := true }

/-- A running instance constructed by attaching to a pre-existing pid (the
constructor's `pid` argument), so `_slapd_proc` was never assigned. -/
def svc_attached : ServiceState :=
  { status := ServiceStatus.running, pid := some 5, slapd_proc := false,
    stop_on_del := true }

/-- An instance whose recorded process has been observed to have vanished. -/
def svc_gone : ServiceState :=
  { status := ServiceStatus.gone, pid := none, slapd_proc := true,
    stop_on_del := true }

/-- Trace of a successful `create_minimal` with the scheme-prefixed config
password `{CRYPT}xyz`. -/
def tr_minimal3 : List Action :=
  [Action.write_rootpw "{CRYPT}xyz".toList, Action.slaptest,
   Action.write_pid none, Action.write_status ServiceStatus.stopped]

/-- Trace of a successful `start(fork=True)` landing on child pid 7. -/
def tr_start3 : List Action :=
  [Action.popen_slapd, Action.write_pid (some 7),
   Action.write_status ServiceStatus.running]

/-- Trace of a `start(fork=True)` whose freshly recorded pid is found dead
by the probe inside `_set_status`, degrading straight to `gone`. -/
def tr_start3_dead : List Action :=
  tr_start3 ++ [Action.write_pid none, Action.write_status ServiceStatus.gone]

/-- Trace of a bootstrap `try` body failing at call 3 (backend-database
creation), with the scheme-prefixed root password `{CRYPT}xyz`. -/
def tr_body3 : List Action :=
  [Action.simple_bind "cn=config".toList, Action.modify_s "cn=config".toList,
   Action.add_s "cn=Module{0},cn=config".toList,
   Action.add_s_database "olcDatabase=hdb,cn=config".toList "{CRYPT}xyz".toList]

/-! ## Basic facts about the probe -/

theorem probe_status_of_not_running (env : Env) (s : ServiceState)
    (h : ¬ s.status = ServiceStatus.running) :
    probe_status env s = (Except.ok (), s, []) := by
  simp [probe_status, h]

theorem probe_status_alive (env : Env) (s : ServiceState) (p : Nat)
    (hs : s.status = ServiceStatus.running) (hp : s.pid = some p)
    (he : env.pid_exists p = true) (hz : env.is_zombie p = false) :
    probe_status env s = (Except.ok (), s, []) := by
  simp [probe_status, hs, hp, he, hz]

/-- Eliminator for a `status` read that reports `running`: the probe left
the state untouched, the recorded status really is `running`, and the
recorded pid exists and is alive and non-zombie. -/
theorem status_read_running_elim (env : Env) (s : ServiceState)
    (h : (status_read env s).1 = Except.ok ServiceStatus.running) :
    status_read env s = (Except.ok ServiceStatus.running, s, []) ∧
    s.status = ServiceStatus.running ∧
    ∃ p, s.pid = some p ∧ env.pid_exists p = true ∧ env.is_zombie p = false := by
  by_cases hs : s.status = ServiceStatus.running
  · match hp : s.pid with
    | none => simp [status_read, probe_status, hs, hp] at h
    | some p =>
        by_cases he : env.pid_exists p
        · by_cases hz : env.is_zombie p
          · simp [status_read, probe_status, set_status_write, hs, hp, he, hz] at h
          · refine ⟨?_, hs, p, rfl, he, by simp [hz]⟩
            simp [status_read, probe_status, hs, hp, he, hz]
        · simp [status_read, probe_status, set_status_write, hs, hp, he] at h
  · rw [status_read, probe_status_of_not_running env s hs] at h
    simp at h
    exact absurd h hs

/-! ## Preservation of the pid/status invariant -/

theorem probe_status_preserves_inv (env : Env) (s : ServiceState)
    (h : pid_status_inv s) : pid_status_inv (probe_status env s).2.1 := by
  by_cases hs : s.status = ServiceStatus.running
  · match hp : s.pid with
    | none => simpa [probe_status, hs, hp] using h
    | some p =>
        by_cases he : env.pid_exists p
        · by_cases hz : env.is_zombie p
          · simp [probe_status, set_status_write, hs, hp, he, hz, pid_status_inv]
          · simpa [probe_status, hs, hp, he, hz] using h
        · simp [probe_status, set_status_write, hs, hp, he, pid_status_inv]
  · simpa [probe_status, hs] using h

theorem set_status_preserves_inv (env : Env) (st : ServiceStatus)
    (pid : Option Nat) (s : ServiceState) (h : pid_status_inv s) :
    pid_status_inv (set_status env st pid s).2.1 := by
  by_cases hg : st = ServiceStatus.running ∧ pid = none
  · simpa [set_status, hg] using h
  · have hinv1 : pid_status_inv (set_status_write st pid s).1 := by
      by_cases hr : st = ServiceStatus.running
      · match pid with
        | none => exact absurd ⟨hr, rfl⟩ hg
        | some p => simp [set_status_write, pid_status_inv, hr]
      · simp [set_status_write, pid_status_inv, hr]
    have hprobe := probe_status_preserves_inv env (set_status_write st pid s).1 hinv1
    rcases hsw : set_status_write st pid s with ⟨s1, tr⟩
    rw [hsw] at hinv1 hprobe
    by_cases hps : s1.pid.isSome
    · rcases hpr : probe_status env s1 with ⟨r, s2, tr2⟩
      rw [hpr] at hprobe
      simpa [set_status, hg, hsw, hps, hpr] using hprobe
    · simpa [set_status, hg, hsw, hps] using hinv1

theorem status_read_preserves_inv (env : Env) (s : ServiceState)
    (h : pid_status_inv s) : pid_status_inv (status_read env s).2.1 := by
  have hp := probe_status_preserves_inv env s h
  rcases hpr : probe_status env s with ⟨r, s1, tr⟩
  rw [hpr] at hp
  rcases r with e | u <;> simpa [status_read, hpr] using hp

theorem stop_preserves_inv (env : Env) (s : ServiceState)
    (h : pid_status_inv s) : pid_status_inv (stop env s).2.1 := by
  have h1 := status_read_preserves_inv env s h
  rcases hsr : status_read env s with ⟨r, s1, tr1⟩
  rw [hsr] at h1
  rcases r with e | st
  · simpa [stop, hsr] using h1
  · by_cases hst : st = ServiceStatus.running
    · match hp : s1.pid with
      | none => simpa [stop, hsr, hst, hp] using h1
      | some p =>
          cases hk : env.kill p with
          | ok =>
              by_cases hsp : s1.slapd_proc
              · have h2 := set_status_preserves_inv env ServiceStatus.stopped none s1 h1
                rcases hss : set_status env ServiceStatus.stopped none s1 with ⟨r2, s2, tr2⟩
                rw [hss] at h2
                simpa [stop, hsr, hst, hp, hk, hsp, hss] using h2
              · simpa [stop, hsr, hst, hp, hk, hsp] using h1
          | esrch =>
              have h2 := set_status_preserves_inv env ServiceStatus.gone none s1 h1
              rcases hss : set_status env ServiceStatus.gone none s1 with ⟨r2, s2, tr2⟩
              rw [hss] at h2
              simpa [stop, hsr, hst, hp, hk, hss] using h2
          | err => simpa [stop, hsr, hst, hp, hk] using h1
    · simpa [stop, hsr, hst] using h1

theorem openldap_start_preserves_inv (env : Env) (fork : Bool) (s : ServiceState)
    (h : pid_status_inv s) : pid_status_inv (openldap_start env fork s).2.1 := by
  by_cases hf : fork
  · have h1 : pid_status_inv ({ s with slapd_proc := true } : ServiceState) := by
      simpa [pid_status_inv] using h
    cases hl : env.slapd_launch with
    | none => simpa [openldap_start, hf, hl] using h1
    | some cp =>
        cases hpf : env.pidfile_path with
        | none =>
            have h2 := set_status_preserves_inv env ServiceStatus.running (some cp)
              { s with slapd_proc := true } h1
            rcases hss : set_status env ServiceStatus.running (some cp)
                { s with slapd_proc := true } with ⟨r2, s2, tr2⟩
            rw [hss] at h2
            simpa [openldap_start, hf, hl, hpf, hss] using h2
        | some path =>
            cases hpi : parse_int (py_strip env.pidfile_content) with
            | none => simpa [openldap_start, hf, hl, hpf, hpi] using h1
            | some n =>
                have h2 := set_status_preserves_inv env ServiceStatus.running (some n)
                  { s with slapd_proc := true } h1
                rcases hss : set_status env ServiceStatus.running (some n)
                    { s with slapd_proc := true } with ⟨r2, s2, tr2⟩
                rw [hss] at h2
                simpa [openldap_start, hf, hl, hpf, hpi, hss] using h2
  · simpa [openldap_start, hf] using h

theorem start_preserves_inv (env : Env) (fork : Bool) (s : ServiceState)
    (h : pid_status_inv s) : pid_status_inv (start env fork s).2.1 := by
  have h1 := status_read_preserves_inv env s h
  rcases hsr : status_read env s with ⟨r, s1, tr1⟩
  rw [hsr] at h1
  rcases r with e | st
  · simpa [start, hsr] using h1
  · by_cases hst : st = ServiceStatus.running
    · simpa [start, hsr, hst] using h1
    · have h2 := openldap_start_preserves_inv env fork s1 h1
      rcases ho : openldap_start env fork s1 with ⟨r2, s2, tr2⟩
      rw [ho] at h2
      rcases r2 with e2 | u2 <;> simpa [start, hsr, hst, ho] using h2

theorem service_init_establishes_inv (env : Env) (pid : Option Nat) (sod : Bool) :
    pid_status_inv (service_init env pid sod).2.1 := by
  cases pid with
  | none =>
      have h := set_status_preserves_inv env ServiceStatus.stopped none
        { status := ServiceStatus.stopped, pid := none, slapd_proc := false,
          stop_on_del := sod } (by simp [pid_status_inv])
      simpa [service_init] using h
  | some p =>
      have h := set_status_preserves_inv env ServiceStatus.running (some p)
        { status := ServiceStatus.stopped, pid := none, slapd_proc := false,
          stop_on_del := sod } (by simp [pid_status_inv])
      simpa [service_init] using h

/-- A successful `start` always returns Python `None`: `ServiceImpl.start`
discards `_start`'s value and falls off the end. -/
theorem start_ok_eq_none (env : Env) (fork : Bool) (s : ServiceState)
    (v : Option Nat) (h : (start env fork s).1 = Except.ok v) : v = none := by
  rcases hsr : status_read env s with ⟨r, s1, tr1⟩
  rcases r with e | st
  · simp [start, hsr] at h
  · by_cases hst : st = ServiceStatus.running
    · simp [start, hsr, hst] at h
    · rcases ho : openldap_start env fork s1 with ⟨r2, s2, tr2⟩
      rcases r2 with e2 | u
      · simp [start, hsr, hst, ho] at h
      · simp [start, hsr, hst, ho] at h
        exact h.symm

/-- A `stop` that returns successfully delivered the termination signal to
the recorded pid and reaped it with a blocking `waitpid`; both actions are
in its trace. -/
theorem stop_ok_trace (env : Env) (s : ServiceState) (p : Nat)
    (hrun : (status_read env s).1 = Except.ok ServiceStatus.running)
    (hp : s.pid = some p) (hok : (stop env s).1 = Except.ok ()) :
    Action.kill_sigterm p ∈ (stop env s).2.2 ∧
    Action.waitpid p ∈ (stop env s).2.2 := by
  obtain ⟨hsr, -, -⟩ := status_read_running_elim env s hrun
  cases hk : env.kill p with
  | ok =>
      by_cases hsp : s.slapd_proc
      · rcases hss : set_status env ServiceStatus.stopped none s with ⟨r2, s2, tr2⟩
        constructor <;> simp [stop, hsr, hp, hk, hsp, hss]
      · simp [stop, hsr, hp, hk, hsp] at hok
  | esrch =>
      rcases hss : set_status env ServiceStatus.gone none s with ⟨r2, s2, tr2⟩
      simp [stop, hsr, hp, hk, hss] at hok
  | err => simp [stop, hsr, hp, hk] at hok

/-! ## Claim theorems -/

/-- C1: for every service instance whose status reads `running`, `start`
(with any fork value) fails with `InvalidServiceOperation` and leaves the
instance's state — in particular status and pid — unchanged; hence a second
`start` without an intervening `stop`, while the first-started process is
still alive, fails this way. -/
theorem C1_start_when_running (env : Env) (s : ServiceState) (fork : Bool)
    (h : (status_read env s).1 = Except.ok ServiceStatus.running) :
    (start env fork s).1 =
      Except.error (Err.invalidServiceOperation "start" "the service is already running") ∧
    (start env fork s).2.1 = s := by
  obtain ⟨hsr, hs, _⟩ := status_read_running_elim env s h
  simp [start, hsr]

/-- Witness for C1: a live, fork-started running instance. -/
theorem C1_start_when_running_witness :
    (status_read env_alive svc_running).1 = Except.ok ServiceStatus.running ∧
    ((start env_alive true svc_running).1 =
       Except.error (Err.invalidServiceOperation "start" "the service is already running") ∧
     (start env_alive true svc_running).2.1 = svc_running) :=
  ⟨by decide, C1_start_when_running env_alive svc_running true (by decide)⟩

/-- C3 (amended): `gone` is terminal for `stop` and for `status` reads —
`stop` fails with `InvalidServiceOperation` leaving the state unchanged, and
a `status` read returns `gone` without modifying anything — but `start` is
not rejected from `gone`: with a successful launch it returns the instance
to `running`. -/
theorem C3_gone_terminal_for_stop_and_status (env : Env) (s : ServiceState)
    (h : s.status = ServiceStatus.gone) :
    (stop env s).1 =
      Except.error (Err.invalidServiceOperation "stop" "the service is not running") ∧
    (stop env s).2.1 = s ∧
    status_read env s = (Except.ok ServiceStatus.gone, s, []) ∧
    ∀ p, env.slapd_launch = some p → env.pidfile_path = none →
      env.pid_exists p = true → env.is_zombie p = false →
      (start env true s).1 = Except.ok none ∧
      (start env true s).2.1.status = ServiceStatus.running := by
  have hnr : ¬ s.status = ServiceStatus.running := by simp [h]
  have hpr := probe_status_of_not_running env s hnr
  have hsr : status_read env s = (Except.ok ServiceStatus.gone, s, []) := by
    simp [status_read, hpr, h]
  refine ⟨by simp [stop, hsr], by simp [stop, hsr], hsr, ?_⟩
  intro p hl hpf he hz
  constructor <;>
    simp [start, hsr, h, openldap_start, hl, hpf, set_status, set_status_write,
          probe_status, he, hz]

/-- Witness for C3's amended statement at a concrete gone instance. -/
theorem C3_gone_terminal_witness :
    svc_gone.status = ServiceStatus.gone ∧
    ((stop env_alive svc_gone).1 =
       Except.error (Err.invalidServiceOperation "stop" "the service is not running") ∧
     (stop env_alive svc_gone).2.1 = svc_gone ∧
     status_read env_alive svc_gone = (Except.ok ServiceStatus.gone, svc_gone, []) ∧
     ∀ p, env_alive.slapd_launch = some p → env_alive.pidfile_path = none →
       env_alive.pid_exists p = true → env_alive.is_zombie p = false →
       (start env_alive true svc_gone).1 = Except.ok none ∧
       (start env_alive true svc_gone).2.1.status = ServiceStatus.running) :=
  ⟨by decide, C3_gone_terminal_for_stop_and_status env_alive svc_gone (by decide)⟩

/-- Counterexample to C3 as stated: a concrete `gone` instance accepts
`start` — the call raises no `InvalidServiceOperation`, succeeds, and the
instance's status goes back to `running`. -/
theorem C3_start_from_gone_counterexample :
    (start env_alive true svc_gone).1 = Except.ok none ∧
    (start env_alive true svc_gone).2.1.status = ServiceStatus.running := by decide

/-- C5 (the code at the claim's failing input): a successful
`start(fork=True)` on a stopped instance leaves status `running` and a
positive pid recorded — but the call itself evaluates to Python `None`, not
the launched daemon's pid: `ServiceImpl.start` (line 197) drops `_start`'s
value and falls off the end.  `create_basic` even compares the result with
`0`, expecting fork-return semantics, so the spec's `start -> processId` is
the evident intent and the missing `return` a slip in the code. -/
theorem C5_start_returns_none_not_pid :
    (start env_alive true svc_stopped).1 = Except.ok none ∧
    (start env_alive true svc_stopped).1 ≠ Except.ok (some 7) ∧
    (start env_alive true svc_stopped).2.1.status = ServiceStatus.running ∧
    (start env_alive true svc_stopped).2.1.pid = some 7 ∧ 0 < 7 := by decide

/-- C10: stopping an instance that was constructed by attaching to a
pre-existing live pid (pid supplied to `__init__`, so the fork-launch path
never assigned `_slapd_proc`) delivers the termination signal and then
raises `AttributeError` dereferencing `self._slapd_proc`; the blocking reap
and the transition to `stopped` are unreachable, and the recorded status
remains `running`. -/
theorem C10_stop_attached_raises_attribute_error (env : Env) (p : Nat)
    (he : env.pid_exists p = true) (hz : env.is_zombie p = false)
    (hk : env.kill p = KillResult.ok) :
    (stop env (service_init env (some p) true).2.1).1 =
      Except.error (Err.attributeError "_slapd_proc") ∧
    (stop env (service_init env (some p) true).2.1).2.1.status =
      ServiceStatus.running ∧
    Action.kill_sigterm p ∈ (stop env (service_init env (some p) true).2.1).2.2 ∧
    Action.waitpid p ∉ (stop env (service_init env (some p) true).2.1).2.2 := by
  have hsi : (service_init env (some p) true).2.1 =
      { status := ServiceStatus.running, pid := some p, slapd_proc := false,
        stop_on_del := true } := by
    simp [service_init, set_status, set_status_write, probe_status, he, hz]
  rw [hsi]
  have hsr : status_read env
      { status := ServiceStatus.running, pid := some p, slapd_proc := false,
        stop_on_del := true } =
      (Except.ok ServiceStatus.running,
       { status := ServiceStatus.running, pid := some p, slapd_proc := false,
         stop_on_del := true }, []) := by
    simp [status_read, probe_status, he, hz]
  simp [stop, hsr, hk]

/-- Witness for C10 at pid 5 in the benign environment. -/
theorem C10_stop_attached_witness :
    env_alive.pid_exists 5 = true ∧ env_alive.is_zombie 5 = false ∧
    env_alive.kill 5 = KillResult.ok ∧
    ((stop env_alive (service_init env_alive (some 5) true).2.1).1 =
       Except.error (Err.attributeError "_slapd_proc") ∧
     (stop env_alive (service_init env_alive (some 5) true).2.1).2.1.status =
       ServiceStatus.running ∧
     Action.kill_sigterm 5 ∈ (stop env_alive (service_init env_alive (some 5) true).2.1).2.2 ∧
     Action.waitpid 5 ∉ (stop env_alive (service_init env_alive (some 5) true).2.1).2.2) :=
  ⟨by decide, by decide, by decide,
   C10_stop_attached_raises_attribute_error env_alive 5 (by decide) (by decide) (by decide)⟩

/-- C2 (amended): `stop` fails with `InvalidServiceOperation` when the
re-probed status is not `running`; when it is `running` and signal delivery
reports no such process, `stop` degrades the state to `gone` and fails with
`InvalidServiceOperation`; and when signal delivery succeeds, then — for an
instance that launched its own daemon, so its `_slapd_proc` handle is
recorded — `stop` reaps the recorded pid with a blocking wait and sets
status to `stopped` (an attached instance instead dies with
`AttributeError`; see the counterexample). -/
theorem C2_stop_behavior :
    (∀ env s st, (status_read env s).1 = Except.ok st → st ≠ ServiceStatus.running →
       (stop env s).1 =
         Except.error (Err.invalidServiceOperation "stop" "the service is not running")) ∧
    (∀ env s p, (status_read env s).1 = Except.ok ServiceStatus.running →
       s.pid = some p → env.kill p = KillResult.esrch →
       (stop env s).1 =
         Except.error (Err.invalidServiceOperation "stop"
           "the service went away before it could be stopped") ∧
       (stop env s).2.1.status = ServiceStatus.gone) ∧
    (∀ env s p, (status_read env s).1 = Except.ok ServiceStatus.running →
       s.pid = some p → env.kill p = KillResult.ok → s.slapd_proc = true →
       (stop env s).1 = Except.ok () ∧
       (stop env s).2.1.status = ServiceStatus.stopped ∧
       (stop env s).2.1.pid = none ∧
       Action.waitpid p ∈ (stop env s).2.2) := by
  refine ⟨?_, ?_, ?_⟩
  · intro env s st h hne
    rcases hsr : status_read env s with ⟨r, s1, tr⟩
    rw [hsr] at h
    simp only at h
    subst h
    simp [stop, hsr, hne]
  · intro env s p h hp hk
    obtain ⟨hsr, hs, _⟩ := status_read_running_elim env s h
    constructor <;>
      simp [stop, hsr, hp, hk, set_status, set_status_write, probe_status]
  · intro env s p h hp hk hsp
    obtain ⟨hsr, hs, _⟩ := status_read_running_elim env s h
    refine ⟨?_, ?_, ?_, ?_⟩ <;>
      simp [stop, hsr, hp, hk, hsp, set_status, set_status_write, probe_status]

/-- Witness for C2's three branches: a stopped instance, a running instance
whose signal hits `ESRCH`, and a fork-started running instance stopped
normally. -/
theorem C2_stop_behavior_witness :
    ((status_read env_alive svc_stopped).1 = Except.ok ServiceStatus.stopped ∧
     (stop env_alive svc_stopped).1 =
       Except.error (Err.invalidServiceOperation "stop" "the service is not running")) ∧
    ((status_read env_esrch svc_running).1 = Except.ok ServiceStatus.running ∧
     (stop env_esrch svc_running).1 =
       Except.error (Err.invalidServiceOperation "stop"
         "the service went away before it could be stopped") ∧
     (stop env_esrch svc_running).2.1.status = ServiceStatus.gone) ∧
    ((status_read env_alive svc_running).1 = Except.ok ServiceStatus.running ∧
     (stop env_alive svc_running).1 = Except.ok () ∧
     (stop env_alive svc_running).2.1.status = ServiceStatus.stopped ∧
     (stop env_alive svc_running).2.1.pid = none ∧
     Action.waitpid 7 ∈ (stop env_alive svc_running).2.2) :=
  ⟨⟨by decide,
    C2_stop_behavior.1 env_alive svc_stopped ServiceStatus.stopped (by decide) (by decide)⟩,
   ⟨by decide,
    (C2_stop_behavior.2.1 env_esrch svc_running 7 (by decide) (by decide) (by decide)).1,
    (C2_stop_behavior.2.1 env_esrch svc_running 7 (by decide) (by decide) (by decide)).2⟩,
   ⟨by decide,
    C2_stop_behavior.2.2 env_alive svc_running 7 (by decide) (by decide) (by decide) (by decide)⟩⟩

/-- Counterexample to C2 as stated for *every* instance: on a concrete
attached instance (live pid supplied to the constructor) the termination
signal is delivered, yet `stop` raises `AttributeError` instead of reaping
and never reaches `stopped`. -/
theorem C2_attached_instance_counterexample :
    env_alive.kill 5 = KillResult.ok ∧
    (stop env_alive svc_attached).1 = Except.error (Err.attributeError "_slapd_proc") ∧
    (stop env_alive svc_attached).2.1.status ≠ ServiceStatus.stopped ∧
    Action.waitpid 5 ∉ (stop env_alive svc_attached).2.2 := by decide

/-- C4 (amended): the invariant "a pid is recorded exactly when status is
`running`" is established by the constructor and preserved by `start`,
`stop` and `status` reads (the code in fact clears the pid in the same
`_set_status` call that leaves `running`, so the invariant holds at every
step, not only at the moment of setting); and when a probe degrades
`running` to `gone` because the process is a zombie, the reap (`waitpid`)
strictly precedes the write that clears the pid.  When the process has
vanished entirely, however, the pid is cleared with no reap at all — see
the counterexample. -/
theorem C4_pid_status_invariant :
    (∀ env pid sod, pid_status_inv (service_init env pid sod).2.1) ∧
    (∀ env fork s, pid_status_inv s → pid_status_inv (start env fork s).2.1) ∧
    (∀ env s, pid_status_inv s → pid_status_inv (stop env s).2.1) ∧
    (∀ env s, pid_status_inv s → pid_status_inv (status_read env s).2.1) ∧
    (∀ env s p, s.status = ServiceStatus.running → s.pid = some p →
       env.pid_exists p = true → env.is_zombie p = true →
       probe_status env s =
         (Except.ok (), { s with status := ServiceStatus.gone, pid := none },
          [Action.waitpid p, Action.write_pid none,
           Action.write_status ServiceStatus.gone])) := by
  refine ⟨service_init_establishes_inv, start_preserves_inv, stop_preserves_inv,
    status_read_preserves_inv, ?_⟩
  intro env s p hs hp he hz
  simp [probe_status, set_status_write, hs, hp, he, hz]

/-- Witness for C4's conjuncts at concrete instances (the zombie branch at
pid 7). -/
theorem C4_pid_status_invariant_witness :
    pid_status_inv (service_init env_alive (some 5) true).2.1 ∧
    (pid_status_inv svc_stopped ∧ pid_status_inv (start env_alive true svc_stopped).2.1) ∧
    (pid_status_inv svc_running ∧ pid_status_inv (stop env_alive svc_running).2.1) ∧
    (pid_status_inv svc_gone ∧ pid_status_inv (status_read env_alive svc_gone).2.1) ∧
    probe_status env_zombie svc_running =
      (Except.ok (), { svc_running with status := ServiceStatus.gone, pid := none },
       [Action.waitpid 7, Action.write_pid none,
        Action.write_status ServiceStatus.gone]) :=
  ⟨C4_pid_status_invariant.1 env_alive (some 5) true,
   ⟨by decide, C4_pid_status_invariant.2.1 env_alive true svc_stopped (by decide)⟩,
   ⟨by decide, C4_pid_status_invariant.2.2.1 env_alive svc_running (by decide)⟩,
   ⟨by decide, C4_pid_status_invariant.2.2.2.1 env_alive svc_gone (by decide)⟩,
   C4_pid_status_invariant.2.2.2.2 env_zombie svc_running 7 (by decide) (by decide)
     (by decide) (by decide)⟩

/-- Counterexample to C4's "pid is not cleared until the process is reaped":
when the probed process has vanished (rather than lingering as a zombie),
the degrading probe clears the pid immediately and performs no reap — its
trace holds the clearing write and no `waitpid`. -/
theorem C4_vanished_clears_pid_without_reap :
    probe_status env_dead svc_running =
      (Except.ok (), { svc_running with status := ServiceStatus.gone, pid := none },
       [Action.write_pid none, Action.write_status ServiceStatus.gone]) ∧
    Action.waitpid 7 ∉ (probe_status env_dead svc_running).2.2 := by decide

/-! ## Base64 character-class facts -/

theorem all_getD {p : Char → Bool} :
    ∀ (l : List Char) (n : Nat) (d : Char), l.all p = true → p d = true →
      p (l.getD n d) = true
  | [], _, _, _, hd => by simpa [List.getD] using hd
  | a :: l, 0, d, hl, _ => by
      rw [List.all_cons, Bool.and_eq_true] at hl
      simpa [List.getD] using hl.1
  | a :: l, n + 1, d, hl, hd => by
      rw [List.all_cons, Bool.and_eq_true] at hl
      simpa [List.getD] using all_getD l n d hl.2 hd

theorem isB64Char_b64tbl (n : Nat) : isB64Char (b64tbl n) = true := by
  simpa [b64tbl] using all_getD b64alphabet n 'A' (by decide) (by decide)

theorem b64encode_all_b64 : ∀ bs : PyStr, (b64encode bs).all isB64Char = true
  | [] => by simp [b64encode]
  | [a] => by
      simp [b64encode, List.all_cons, isB64Char_b64tbl,
            (by decide : isB64Char '=' = true)]
  | [a, b] => by
      simp [b64encode, List.all_cons, isB64Char_b64tbl,
            (by decide : isB64Char '=' = true)]
  | a :: b :: c :: rest => by
      simp [b64encode, List.all_cons, isB64Char_b64tbl, b64encode_all_b64 rest]

theorem b64encode_ne_nil : ∀ bs : PyStr, bs ≠ [] → b64encode bs ≠ []
  | [], h => absurd rfl h
  | [_], _ => by simp [b64encode]
  | [_, _], _ => by simp [b64encode]
  | _ :: _ :: _ :: _, _ => by simp [b64encode]

/-- C9: for every credential supplied as a root or config password, the
rendered configuration value (`password_configvalue`, the inline hashing of
`create_basic` lines 44-51 and `create_minimal` lines 169-177) equals the
input unchanged when the credential already carries a brace-enclosed scheme
prefix; otherwise it is `"{SSHA}"` followed by the base64 encoding of the
SHA-1 digest of credential‖salt concatenated with the 4-byte salt, and
therefore matches `^\x7bSSHA\x7d[A-Za-z0-9+/=]+$`. -/
theorem C9_credential_rendering (f : PyStr → PyStr) (salt pw : PyStr) :
    (password_with_scheme_matches pw = true →
       password_configvalue f salt pw = pw) ∧
    (password_with_scheme_matches pw = false → salt.length = 4 →
       password_configvalue f salt pw =
         "{SSHA}".toList ++ b64encode (f (pw ++ salt) ++ salt) ∧
       matchesSSHARegex (password_configvalue f salt pw) = true) := by
  constructor
  · intro h; simp [password_configvalue, h]
  · intro h hs
    have hmain : password_configvalue f salt pw =
        "{SSHA}".toList ++ b64encode (f (pw ++ salt) ++ salt) := by
      simp [password_configvalue, h]
    refine ⟨hmain, ?_⟩
    rw [hmain]
    have hsalt : salt ≠ [] := by
      intro hnil; rw [hnil] at hs; simp at hs
    have hne : f (pw ++ salt) ++ salt ≠ [] := by
      intro hnil
      exact hsalt (List.append_eq_nil.mp hnil).2
    have hb := b64encode_ne_nil _ hne
    have hall := b64encode_all_b64 (f (pw ++ salt) ++ salt)
    have hlen : ("{SSHA}".toList : List Char).length = 6 := by decide
    have htake : ("{SSHA}".toList ++ b64encode (f (pw ++ salt) ++ salt)).take 6 =
        "{SSHA}".toList := by
      rw [← hlen, List.take_left]
    have hdrop : ("{SSHA}".toList ++ b64encode (f (pw ++ salt) ++ salt)).drop 6 =
        b64encode (f (pw ++ salt) ++ salt) := by
      rw [← hlen, List.drop_left]
    simp [matchesSSHARegex, htake, hdrop, hall, List.isEmpty_iff, hb]

/-- Witness for C9: the scheme-prefixed credential `{CRYPT}xyz` passes
through unchanged; the plaintext credential `admin` renders to an
`{SSHA}`-prefixed base64 value (with a fixed sample digest function and the
salt `abcd`). -/
theorem C9_credential_rendering_witness :
    (password_with_scheme_matches "{CRYPT}xyz".toList = true ∧
     password_configvalue (fun _ => List.replicate 20 'x') "abcd".toList
       "{CRYPT}xyz".toList = "{CRYPT}xyz".toList) ∧
    (password_with_scheme_matches "admin".toList = false ∧
     ("abcd".toList : PyStr).length = 4 ∧
     password_configvalue (fun _ => List.replicate 20 'x') "abcd".toList
         "admin".toList =
       "{SSHA}".toList ++
         b64encode ((fun _ => List.replicate 20 'x')
           ("admin".toList ++ "abcd".toList) ++ "abcd".toList) ∧
     matchesSSHARegex (password_configvalue (fun _ => List.replicate 20 'x')
       "abcd".toList "admin".toList) = true) :=
  ⟨⟨by decide,
    (C9_credential_rendering (fun _ => List.replicate 20 'x') "abcd".toList
      "{CRYPT}xyz".toList).1 (by decide)⟩,
   ⟨by decide, by decide,
    ((C9_credential_rendering (fun _ => List.replicate 20 'x') "abcd".toList
      "admin".toList).2 (by decide) (by decide)).1,
    ((C9_credential_rendering (fun _ => List.replicate 20 'x') "abcd".toList
      "admin".toList).2 (by decide) (by decide)).2⟩⟩

/-- C6 (amended): in every run of `create_basic` that passes suffix
validation, starts the daemon (a successful `create_minimal` followed by a
successful `start(fork=True)`), and then fails anywhere in the bootstrap
`try` body with some error `e`, the `finally` clause decides what the
caller sees: when the instance still reports `running` and the cleanup
`stop` succeeds, the termination signal and the blocking reap are performed
and the original error `e` propagates; when the cleanup `stop` itself
fails, its error replaces `e` (the clause has no exception guard); and when
the instance no longer reports `running`, no stop is attempted and `e`
propagates. -/
theorem C6_cleanup_stop_attempted (env : Env)
    (suffix root_dn dbtype rpw cpw : PyStr)
    (service s1 : ServiceState) (svcpid : Option Nat) (e : Err)
    (tr0 tr1 trB : List Action)
    (hguard : ¬ ((split_on_comma suffix).length > 1 ∧
        ¬ suffix_org_dn_matches (join_with_comma
          ((split_on_comma suffix).drop ((split_on_comma suffix).length - 2)))))
    (hmin : create_minimal env cpw = (Except.ok service, tr0))
    (hstart : start env true service = (Except.ok svcpid, s1, tr1))
    (hbody : cb_try_body env (split_on_comma suffix)
        (join_with_comma ((split_on_comma suffix).drop
          ((split_on_comma suffix).length - 2)))
        (suffix_org_group (join_with_comma ((split_on_comma suffix).drop
          ((split_on_comma suffix).length - 2))))
        root_dn dbtype
        ((split_on_comma suffix).take ((split_on_comma suffix).length - 2))
        (password_configvalue env.sha1 env.urandom4_root rpw) =
      (Except.error e, trB)) :
    (∀ p, (status_read env s1).1 = Except.ok ServiceStatus.running →
       s1.pid = some p → (stop env s1).1 = Except.ok () →
       (create_basic env suffix root_dn dbtype rpw cpw).1 = Except.error e ∧
       Action.kill_sigterm p ∈ (create_basic env suffix root_dn dbtype rpw cpw).2 ∧
       Action.waitpid p ∈ (create_basic env suffix root_dn dbtype rpw cpw).2) ∧
    (∀ e2, (status_read env s1).1 = Except.ok ServiceStatus.running →
       (stop env s1).1 = Except.error e2 →
       (create_basic env suffix root_dn dbtype rpw cpw).1 = Except.error e2) ∧
    (∀ st, (status_read env s1).1 = Except.ok st → st ≠ ServiceStatus.running →
       (create_basic env suffix root_dn dbtype rpw cpw).1 = Except.error e) := by
  have hnone : svcpid = none :=
    start_ok_eq_none env true service svcpid (by rw [hstart])
  subst hnone
  refine ⟨?_, ?_, ?_⟩
  · intro p hrun hp hstopok
    obtain ⟨hsr, -, -⟩ := status_read_running_elim env s1 hrun
    have hmem := stop_ok_trace env s1 p hrun hp hstopok
    rcases hst2 : stop env s1 with ⟨rs, s2, tr2⟩
    rw [hst2] at hstopok hmem
    simp only at hstopok hmem
    subst hstopok
    have hcb : create_basic env suffix root_dn dbtype rpw cpw =
        (Except.error e, tr0 ++ tr1 ++ trB ++ tr2) := by
      simp only [create_basic]
      rw [if_neg hguard]
      simp [hmin, hstart, hbody, cb_finally, hsr, hst2]
    rw [hcb]
    refine ⟨rfl, ?_, ?_⟩ <;> simp [hmem.1, hmem.2]
  · intro e2 hrun hstoperr
    obtain ⟨hsr, -, -⟩ := status_read_running_elim env s1 hrun
    rcases hst2 : stop env s1 with ⟨rs, s2, tr2⟩
    rw [hst2] at hstoperr
    simp only at hstoperr
    subst hstoperr
    simp only [create_basic]
    rw [if_neg hguard]
    simp [hmin, hstart, hbody, cb_finally, hsr, hst2]
  · intro st hrd hne
    rcases hsr3 : status_read env s1 with ⟨r3, s3, tr3⟩
    rw [hsr3] at hrd
    simp only at hrd
    subst hrd
    simp only [create_basic]
    rw [if_neg hguard]
    simp [hmin, hstart, hbody, cb_finally, hsr3, hne]

/-- Witness for C6's three branches at a concrete failing bootstrap (call 3
fails): a run whose cleanup stop succeeds (original error propagates, with
signal and reap delivered), a run whose cleanup stop hits `ESRCH` (its
error replaces the original), and a run whose daemon dies right after
launch (no stop attempted, original error propagates). -/
theorem C6_cleanup_stop_attempted_witness :
    ((create_basic env_ldap3_fail "dc=example".toList "cn=admin,dc=example".toList
        "hdb".toList "{CRYPT}xyz".toList "{CRYPT}xyz".toList).1 =
       Except.error (Err.ldapError 3) ∧
     Action.kill_sigterm 7 ∈ (create_basic env_ldap3_fail "dc=example".toList
       "cn=admin,dc=example".toList "hdb".toList "{CRYPT}xyz".toList
       "{CRYPT}xyz".toList).2 ∧
     Action.waitpid 7 ∈ (create_basic env_ldap3_fail "dc=example".toList
       "cn=admin,dc=example".toList "hdb".toList "{CRYPT}xyz".toList
       "{CRYPT}xyz".toList).2) ∧
    (create_basic env_ldap3_fail_esrch "dc=example".toList
        "cn=admin,dc=example".toList "hdb".toList "{CRYPT}xyz".toList
        "{CRYPT}xyz".toList).1 =
      Except.error (Err.invalidServiceOperation "stop"
        "the service went away before it could be stopped") ∧
    (create_basic env_ldap3_fail_dead "dc=example".toList
        "cn=admin,dc=example".toList "hdb".toList "{CRYPT}xyz".toList
        "{CRYPT}xyz".toList).1 = Except.error (Err.ldapError 3) :=
  ⟨(C6_cleanup_stop_attempted env_ldap3_fail "dc=example".toList
      "cn=admin,dc=example".toList "hdb".toList "{CRYPT}xyz".toList
      "{CRYPT}xyz".toList svc_stopped svc_running none (Err.ldapError 3)
      tr_minimal3 tr_start3 tr_body3 (by decide) (by decide) (by decide)
      (by decide)).1 7 (by decide) (by decide) (by decide),
   (C6_cleanup_stop_attempted env_ldap3_fail_esrch "dc=example".toList
      "cn=admin,dc=example".toList "hdb".toList "{CRYPT}xyz".toList
      "{CRYPT}xyz".toList svc_stopped svc_running none (Err.ldapError 3)
      tr_minimal3 tr_start3 tr_body3 (by decide) (by decide) (by decide)
      (by decide)).2.1
     (Err.invalidServiceOperation "stop"
       "the service went away before it could be stopped")
     (by decide) (by decide),
   (C6_cleanup_stop_attempted env_ldap3_fail_dead "dc=example".toList
      "cn=admin,dc=example".toList "hdb".toList "{CRYPT}xyz".toList
      "{CRYPT}xyz".toList svc_stopped svc_gone none (Err.ldapError 3)
      tr_minimal3 tr_start3_dead tr_body3 (by decide) (by decide) (by decide)
      (by decide)).2.2 ServiceStatus.gone (by decide) (by decide)⟩

/-- Counterexample to C6 as stated: in a run whose bootstrap fails at the
backend-database call (original error) and whose cleanup-time termination
signal reports no such process, the cleanup `stop` raises
`InvalidServiceOperation`, and — `finally` having no exception guard — that
failure propagates to the caller *in place of* the original error. -/
theorem C6_cleanup_failure_replaces_error_counterexample :
    (create_basic env_ldap3_fail_esrch "dc=example".toList
        "cn=admin,dc=example".toList "hdb".toList "{CRYPT}xyz".toList
        "{CRYPT}xyz".toList).1 =
      Except.error (Err.invalidServiceOperation "stop"
        "the service went away before it could be stopped") ∧
    (create_basic env_ldap3_fail_esrch "dc=example".toList
        "cn=admin,dc=example".toList "hdb".toList "{CRYPT}xyz".toList
        "{CRYPT}xyz".toList).1 ≠ Except.error (Err.ldapError 3) := by decide

/-- C7 (amended): `create_basic` validates the suffix only when it has more
than one RDN: such a suffix whose last two components fail
`_SUFFIX_ORG_DN_RE` is rejected with `ValueError` before anything at all
happens (the trace is empty — in particular no daemon process is
launched).  A single-RDN suffix such as `dc=example` bypasses the
validation entirely (see the counterexample). -/
theorem C7_invalid_multi_rdn_suffix_rejected_before_launch (env : Env)
    (suffix root_dn dbtype rpw cpw : PyStr)
    (hlen : (split_on_comma suffix).length > 1)
    (hm : suffix_org_dn_matches
        (join_with_comma ((split_on_comma suffix).drop
          ((split_on_comma suffix).length - 2))) = false) :
    create_basic env suffix root_dn dbtype rpw cpw =
      (Except.error (Err.valueError "invalid suffix DN"), []) := by
  simp [create_basic, hlen, hm]

/-- Witness for C7's amended statement at the two-RDN suffix
`ou=x,dc=example`, whose last two components do not match
`dc=<org>,dc=<tld>`. -/
theorem C7_invalid_suffix_witness :
    (split_on_comma "ou=x,dc=example".toList).length > 1 ∧
    suffix_org_dn_matches
      (join_with_comma ((split_on_comma "ou=x,dc=example".toList).drop
        ((split_on_comma "ou=x,dc=example".toList).length - 2))) = false ∧
    create_basic env_alive "ou=x,dc=example".toList "cn=admin,dc=example".toList
        "hdb".toList "{CRYPT}xyz".toList "{CRYPT}xyz".toList =
      (Except.error (Err.valueError "invalid suffix DN"), []) :=
  ⟨by decide, by decide,
   C7_invalid_multi_rdn_suffix_rejected_before_launch env_alive
     "ou=x,dc=example".toList "cn=admin,dc=example".toList "hdb".toList
     "{CRYPT}xyz".toList "{CRYPT}xyz".toList (by decide) (by decide)⟩

/-- Counterexample to C7 as stated: `create_basic` with the single-RDN
suffix `dc=example` raises no suffix-validation error at all — the run
proceeds, launches the daemon (`popen_slapd` is in the trace), completes
the bootstrap, and returns a stopped instance. -/
theorem C7_single_rdn_suffix_counterexample :
    (create_basic env_alive "dc=example".toList "cn=admin,dc=example".toList
        "hdb".toList "{CRYPT}xyz".toList "{CRYPT}xyz".toList).1 =
      Except.ok { status := ServiceStatus.stopped, pid := none,
                  slapd_proc := true, stop_on_del := true } ∧
    Action.popen_slapd ∈ (create_basic env_alive "dc=example".toList
      "cn=admin,dc=example".toList "hdb".toList "{CRYPT}xyz".toList
      "{CRYPT}xyz".toList).2 := by decide

/-- C8 (the code at the claim's failing input): with suffix
`ou=eng,dc=example,dc=net` the organization entry at `dc=example,dc=net` is
created first, as the claim says — but the organizational-unit walk then
evaluates `','.join(orgunit_rdn, orgunit_dn)`, a two-argument call to the
one-argument method `str.join`, and dies with `TypeError`; no entry for
`ou=eng,dc=example,dc=net` is ever created (the walk's own `add_s`, which
as written targets the organization DN again, is unreachable).  The spec's
design notes themselves flag this construction as a latent defect, so the
claim reflects the intent and the code is the slip. -/
theorem C8_orgunit_walk_raises_type_error :
    (create_basic env_alive "ou=eng,dc=example,dc=net".toList
        "cn=admin,dc=example,dc=net".toList "hdb".toList
        "{CRYPT}xyz".toList "{CRYPT}xyz".toList).1 =
      Except.error (Err.typeError "join takes exactly one argument") ∧
    Action.add_s_org "dc=example,dc=net".toList "example".toList ∈
      (create_basic env_alive "ou=eng,dc=example,dc=net".toList
        "cn=admin,dc=example,dc=net".toList "hdb".toList
        "{CRYPT}xyz".toList "{CRYPT}xyz".toList).2 ∧
    Action.add_s "ou=eng,dc=example,dc=net".toList ∉
      (create_basic env_alive "ou=eng,dc=example,dc=net".toList
        "cn=admin,dc=example,dc=net".toList "hdb".toList
        "{CRYPT}xyz".toList "{CRYPT}xyz".toList).2 ∧
    Action.add_s_org "ou=eng,dc=example,dc=net".toList "eng".toList ∉
      (create_basic env_alive "ou=eng,dc=example,dc=net".toList
        "cn=admin,dc=example,dc=net".toList "hdb".toList
        "{CRYPT}xyz".toList "{CRYPT}xyz".toList).2 := by decide

end SpruceLdap
